import Mathlib

/-!
Shallow embedding of the FIIT-Intern backend chat routes
(`src/Backend/routes/chat.js` together with the schema in
`src/Backend/models/Chat.js`).

The document store is modelled as a list of chat documents; each Express
handler becomes a pure function from its request data, an oracle describing
the upstream (axios/Gemini) outcome, an oracle describing the outcome of the
`save` call, and the current store contents, to an `Outcome` that records the
HTTP response, the new store contents, and how many generation-API calls and
store operations the request performed.
-/

namespace FiitChat

/-- One persisted chat document (`src/Backend/models/Chat.js`).  The
`updatedAt` timestamp added by `timestamps: true` is omitted: no route reads
it.  `createdAt` is the store-assigned creation time, modelled as a natural
number. -/
structure ChatRec where
  _id : String
  user : String
  prompt : String
  response : String
  type : String
  imageUrl : Option String
  tokens : Nat
  model : String
  createdAt : Nat
  deriving DecidableEq

/-- The projection returned by `GET /history` via `.select('-user')`: every
stored field except the owner reference. -/
structure ProjChat where
  _id : String
  prompt : String
  response : String
  type : String
  imageUrl : Option String
  tokens : Nat
  model : String
  createdAt : Nat
  deriving DecidableEq

/-- `.select('-user')`: drop the `user` field, keep everything else. -/
def projectChat (r : ChatRec) : ProjChat :=
  { _id := r._id, prompt := r.prompt, response := r.response, type := r.type,
    imageUrl := r.imageUrl, tokens := r.tokens, model := r.model,
    createdAt := r.createdAt }

/-- One element of a candidate's `content.parts` array in a Gemini response
body; `text` may be absent. -/
structure GPart where
  text : Option String
  deriving DecidableEq

/-- The `content` object of a Gemini candidate; its `parts` array may be
absent. -/
structure GContent where
  parts : Option (List GPart)
  deriving DecidableEq

/-- One element of the `candidates` array of a Gemini response body. -/
structure GCandidate where
  content : Option GContent
  deriving DecidableEq

/-- The JSON body of a Gemini response as far as the routes inspect it:
the `candidates` array (possibly absent) and `error.message` (possibly
absent), used by the text route when the status is not 200. -/
structure GeminiData where
  candidates : Option (List GCandidate)
  errorMessage : Option String
  deriving DecidableEq

/-- Outcome of an `axios.post` to the Gemini endpoint.
`ok status data` is a resolved response (for the text route, axios resolves
exactly when `validateStatus`, i.e. `status < 500`, holds; for the image
route, which uses the default `validateStatus`, exactly when the status is
2xx).  `err respStatus msg` is a rejected promise: `respStatus = some s`
when the rejection carries an HTTP response of status `s` (`error.response`
is set), `none` for a network/timeout failure, and `msg` is
`error.message`. -/
inductive AxiosResult where
  | ok (status : Nat) (data : GeminiData)
  | err (respStatus : Option Nat) (msg : String)
  deriving DecidableEq

/-- The JSON response bodies the chat routes can produce. -/
inductive RespBody where
  | validationErrors (path msg : String)
  | msgOnly (message : String)
  | msgErr (message error : String)
  | textData (message id prompt response type : String) (createdAt : Nat)
  | imageData (message id prompt response type imageUrl : String) (createdAt : Nat)
  | historyData (message : String) (chats : List ProjChat)
      (current total limit : Int) (count : Nat)
  deriving DecidableEq

/-- An HTTP response: status code plus JSON body. -/
structure HttpResponse where
  status : Nat
  body : RespBody
  deriving DecidableEq

/-- Result of running one request: the response sent, the store contents
afterwards, and counters for the external calls the request performed
(`genCalls`: axios calls to the generation API; `storeReads`: store queries;
`storeWrites`: store mutation operations, attempted ones included). -/
structure Outcome where
  resp : HttpResponse
  store : List ChatRec
  genCalls : Nat
  storeReads : Nat
  storeWrites : Nat
  deriving DecidableEq

/-- The `current` field of a history response body (0 on other bodies). -/
def RespBody.pageCurrent : RespBody → Int
  | .historyData _ _ c _ _ _ => c
  | _ => 0

/-- The `total` (total pages) field of a history response body. -/
def RespBody.pageTotal : RespBody → Int
  | .historyData _ _ _ t _ _ => t
  | _ => 0

/-- The `limit` field of a history response body. -/
def RespBody.pageLimit : RespBody → Int
  | .historyData _ _ _ _ l _ => l
  | _ => 0

/-- The `count` field of a history response body. -/
def RespBody.pageCount : RespBody → Nat
  | .historyData _ _ _ _ _ n => n
  | _ => 0

/-- The `chats` array of a history response body. -/
def RespBody.chatsOf : RespBody → List ProjChat
  | .historyData _ cs _ _ _ _ => cs
  | _ => []

/-! ### Models of the JavaScript builtins the routes use -/

/-- JS whitespace test used by `String.prototype.trim` and `parseInt`. -/
def jsIsWs (c : Char) : Bool := c.isWhitespace

/-- Model of JS `String.prototype.trim`: strip leading and trailing
whitespace. -/
def jsTrim (s : String) : String :=
  ⟨((s.data.dropWhile jsIsWs).reverse.dropWhile jsIsWs).reverse⟩

/-- Accumulate the leading decimal digits of a character list, `none` when no
digit has been seen yet (so `parseInt` of a digit-free string is `NaN`). -/
def digitsVal : List Char → Option Nat → Option Nat
  | [], acc => acc
  | c :: cs, acc =>
    if c.isDigit then digitsVal cs (some ((acc.getD 0) * 10 + (c.toNat - '0'.toNat)))
    else acc

/-- Model of JS `parseInt` on a character list (radix 10): skip leading
whitespace, read an optional sign, then the longest prefix of decimal
digits; `none` models `NaN`. -/
def jsParseIntChars (cs : List Char) : Option Int :=
  match cs.dropWhile jsIsWs with
  | '-' :: rest => (digitsVal rest none).map (fun n => -(n : Int))
  | '+' :: rest => (digitsVal rest none).map (fun n => (n : Int))
  | rest => (digitsVal rest none).map (fun n => (n : Int))

/-- Model of `parseInt(req.query.x)` where the query parameter may be
absent: `parseInt(undefined)` is `NaN`, modelled as `none`. -/
def jsParseInt : Option String → Option Int
  | none => none
  | some s => jsParseIntChars s.data

/-- JS truthiness of an optional string: `undefined` and `""` are falsy. -/
def jsFalsyOpt : Option String → Bool
  | none => true
  | some s => s.isEmpty

/-- `Math.ceil(total / limit)` for the values reachable in the history
route: after defaulting, `limit` is never 0 (a parsed 0 is falsy and is
replaced by 20). -/
def jsMathCeilDiv (total : Nat) (limit : Int) : Int :=
  if 0 < limit then ((total + limit.toNat - 1) / limit.toNat : Nat)
  else if limit < 0 then -((total / limit.natAbs : Nat) : Int)
  else 0

/-! ### Authentication -/

/-- Modelled from the spec: the auth middleware (`src/Backend/middleware/auth.js`
is not among the sources; only its uses in `src/Backend/routes/chat.js` are).
Per the spec it resolves the bearer token to a user identity via the
credential collaborator and the protected operation fails with
`Unauthorized` when the token is absent or invalid, before the route handler
body runs.  `verify` is the credential collaborator's token-verification
oracle. -/
def runAuth (token : Option String) (verify : String → Option String) : Option String :=
  match token with
  | none => none
  | some t => verify t

/-- Modelled from the spec: the 401 response the auth middleware sends when
the bearer token is absent or invalid; the handler body never runs, so no
generation call and no store operation happens. -/
def unauthorizedOutcome (store : List ChatRec) : Outcome :=
  { resp := { status := 401, body := .msgOnly "Unauthorized" },
    store := store, genCalls := 0, storeReads := 0, storeWrites := 0 }

/-! ### POST /text (src/Backend/routes/chat.js lines 20-122) -/

/-- The express-validator check `isLength \x7b min: 1, max: 2000 \x7d` applied to
the (already trimmed) prompt. -/
def validPrompt (trimmed : String) : Bool :=
  1 ≤ trimmed.length && trimmed.length ≤ 2000

/-- The 400 response produced when `validationResult(req)` is non-empty:
`res.status(400).json(\x7b errors: errors.array() \x7d)` with the per-field
message configured on the `prompt` check. -/
def validationOutcome (store : List ChatRec) : Outcome :=
  { resp := { status := 400,
              body := .validationErrors "prompt" "Prompt must be 1-2000 characters" },
    store := store, genCalls := 0, storeReads := 0, storeWrites := 0 }

/-- The `catch` block of the text route (lines 90-121): `statusCode` starts
at 500 with the generic message and is replaced only when the caught error
carries an HTTP response (`error.response`) whose status is 400, 401 or 429.
`respStatus` is `error.response?.status`; `emsg` is `error.message`;
`writes` counts a `save` that was attempted before the error. -/
def textCatch (respStatus : Option Nat) (emsg : String) (store : List ChatRec)
    (writes : Nat) : Outcome :=
  let sm : Nat × String :=
    match respStatus with
    | some 400 => (400, "Invalid request to Gemini API")
    | some 401 => (401, "Invalid API key")
    | some 429 => (429, "Rate limit exceeded")
    | _ => (500, "Error generating text response")
  { resp := { status := sm.1, body := .msgErr sm.2 emsg },
    store := store, genCalls := 1, storeReads := 0, storeWrites := writes }

/-- Line 64: `geminiResponse.data.candidates?.[0]?.content?.parts?.[0]?.text`
with every step optional-chained. -/
def textExtract (d : GeminiData) : Option String :=
  match d.candidates with
  | none => none
  | some [] => none
  | some (c :: _) =>
    match c.content with
    | none => none
    | some ct =>
      match ct.parts with
      | none => none
      | some [] => none
      | some (p :: _) => p.text

/-- Lines 64-67: the extracted text, where the falsy check `if (!response)`
also rejects the empty string. -/
def textResponse (d : GeminiData) : Option String :=
  match textExtract d with
  | none => none
  | some s => if s.isEmpty then none else some s

/-- The body of `router.post('/text')` after the auth middleware resolved
`uid` (lines 23-121).  `rawPrompt` is `req.body.prompt` as sent by the
client; the `.trim()` sanitizer in the validation chain rewrites it in
place, so the handler body only ever sees the trimmed prompt.  `upstream` is
the axios outcome, `saveErr` the outcome of `chat.save()` (`some m` for a
rejection with message `m`), `freshId` the store-assigned id, `now` the
store-assigned `createdAt`. -/
def handleTextAuthed (uid rawPrompt : String) (upstream : AxiosResult)
    (saveErr : Option String) (freshId : String) (now : Nat)
    (store : List ChatRec) : Outcome :=
  let prompt := jsTrim rawPrompt
  if !(validPrompt prompt) then validationOutcome store
  else
    match upstream with
    | .err respStatus emsg => textCatch respStatus emsg store 0
    | .ok status data =>
      if status ≠ 200 then
        -- lines 56-62: `throw new Error(data.error?.message || '...')` — a
        -- plain Error carries no `.response`, so the catch block's status
        -- switch is not reached for statuses that axios resolved (< 500)
        textCatch none (data.errorMessage.getD "Failed to get response from Gemini") store 0
      else
        match textResponse data with
        | none => textCatch none "Invalid response format from Gemini API" store 0
        | some response =>
          match saveErr with
          | some m => textCatch none m store 1
          | none =>
            let chat : ChatRec :=
              { _id := freshId, user := uid, prompt := prompt,
                response := response, type := "text", imageUrl := none,
                tokens := 0, model := "gemini-pro", createdAt := now }
            { resp := { status := 200,
                        body := .textData "Text response generated successfully"
                          freshId prompt response "text" now },
              store := store ++ [chat], genCalls := 1, storeReads := 0,
              storeWrites := 1 }

/-- `router.post('/text')`: the auth middleware followed by the handler
body. -/
def chatTextRoute (token : Option String) (verify : String → Option String)
    (rawPrompt : String) (upstream : AxiosResult) (saveErr : Option String)
    (freshId : String) (now : Nat) (store : List ChatRec) : Outcome :=
  match runAuth token verify with
  | none => unauthorizedOutcome store
  | some uid => handleTextAuthed uid rawPrompt upstream saveErr freshId now store

/-! ### POST /image (lines 124-178) -/

/-- Line 146: `geminiResponse.data.candidates[0]?.content?.parts[0]?.text`.
`candidates[0]` and `parts[0]` are NOT optional-chained, so an absent
`candidates` array, or an absent `parts` array on a present `content`,
raises a TypeError (`Except.error`); the optional-chaining after
`candidates[0]` and after `content` short-circuits the rest of the chain to
`undefined` (`Except.ok none`). -/
def imgExtract (d : GeminiData) : Except Unit (Option String) :=
  match d.candidates with
  | none => .error ()
  | some [] => .ok none
  | some (c :: _) =>
    match c.content with
    | none => .ok none
    | some ct =>
      match ct.parts with
      | none => .error ()
      | some [] => .ok none
      | some (p :: _) => p.text |> .ok

/-- The `catch` block of the image route (lines 171-177): a blanket 500 with
a fixed message, whatever the error was. -/
def imageCatch (emsg : String) (store : List ChatRec) (gen writes : Nat) : Outcome :=
  { resp := { status := 500, body := .msgErr "Error generating image description" emsg },
    store := store, genCalls := gen, storeReads := 0, storeWrites := writes }

/-- The body of `router.post('/image')` after auth resolved `uid`
(lines 127-177).  The image route calls axios with the default
`validateStatus`, so `upstream = .ok status data` only for 2xx statuses; the
handler never inspects the status.  The placeholder image URL is seeded with
`Date.now()`, modelled by the same clock `now` that stamps `createdAt`. -/
def handleImageAuthed (uid rawPrompt : String) (upstream : AxiosResult)
    (saveErr : Option String) (freshId : String) (now : Nat)
    (store : List ChatRec) : Outcome :=
  let prompt := jsTrim rawPrompt
  if !(validPrompt prompt) then validationOutcome store
  else
    match upstream with
    | .err _ emsg => imageCatch emsg store 1 0
    | .ok _ data =>
      match imgExtract data with
      | .error _ => imageCatch "Cannot read properties of undefined" store 1 0
      | .ok t =>
        -- line 146: `... || 'No response from Gemini'` substitutes the
        -- placeholder for an absent or empty text
        let response := if jsFalsyOpt t then "No response from Gemini" else t.getD ""
        let imageUrl := "https://picsum.photos/512/512?random=" ++ toString now
        match saveErr with
        | some m => imageCatch m store 1 1
        | none =>
          let chat : ChatRec :=
            { _id := freshId, user := uid, prompt := prompt,
              response := response, type := "image", imageUrl := some imageUrl,
              tokens := 0, model := "gemini-pro", createdAt := now }
          { resp := { status := 200,
                      body := .imageData "Image description generated successfully"
                        freshId prompt response "image" imageUrl now },
            store := store ++ [chat], genCalls := 1, storeReads := 0,
            storeWrites := 1 }

/-- `router.post('/image')`: the auth middleware followed by the handler
body. -/
def chatImageRoute (token : Option String) (verify : String → Option String)
    (rawPrompt : String) (upstream : AxiosResult) (saveErr : Option String)
    (freshId : String) (now : Nat) (store : List ChatRec) : Outcome :=
  match runAuth token verify with
  | none => unauthorizedOutcome store
  | some uid => handleImageAuthed uid rawPrompt upstream saveErr freshId now store

/-! ### GET /history (lines 181-211) -/

/-- Insert a record into a list kept in descending `createdAt` order. -/
def insDesc (r : ChatRec) : List ChatRec → List ChatRec
  | [] => [r]
  | x :: xs => if r.createdAt ≤ x.createdAt then x :: insDesc r xs else r :: x :: xs

/-- Model of `.sort(\x7b createdAt: -1 \x7d)`: sort by `createdAt`
descending (insertion sort; the store's order among equal keys is
unspecified, any descending sort is a faithful model). -/
def sortDesc : List ChatRec → List ChatRec
  | [] => []
  | x :: xs => insDesc x (sortDesc xs)

/-- `parseInt(q) || d`, lines 183-184: the JS defaulting — `NaN` (absent or
non-numeric parameter) and 0 are falsy and give the default `d`. -/
def effParam (d : Int) (s : Option String) : Int :=
  match jsParseInt s with
  | some n => if n = 0 then d else n
  | none => d

/-- The history route's catch block (lines 207-210), reached when the store
rejects the query (e.g. a negative skip). -/
def historyStoreError (store : List ChatRec) : Outcome :=
  { resp := { status := 500, body := .msgOnly "Error retrieving chat history" },
    store := store, genCalls := 0, storeReads := 1, storeWrites := 0 }

/-- The successful history reply (lines 187-206) for effective `page` and
`limit` values: records owned by `uid`, sorted by `createdAt` descending,
with `skip = (page-1)*limit` applied, the owner field projected away, and
pagination metadata with `total = ceil(count/limit)` pages.  A negative
limit is treated by the store as a limit of its absolute value. -/
def historySuccess (uid : String) (page limit : Int) (store : List ChatRec) : Outcome :=
  let owned := store.filter (fun r => r.user = uid)
  let chats := (((sortDesc owned).drop ((page - 1) * limit).toNat).take limit.natAbs).map projectChat
  { resp := { status := 200,
              body := .historyData "Chat history retrieved successfully" chats
                page (jsMathCeilDiv owned.length limit) limit owned.length },
    store := store, genCalls := 0, storeReads := 2, storeWrites := 0 }

/-- The body of `router.get('/history')` after auth resolved `uid`
(lines 182-210).  The store rejects a negative skip, which the route's
catch turns into the generic 500. -/
def handleHistoryAuthed (uid : String) (pageParam limitParam : Option String)
    (store : List ChatRec) : Outcome :=
  let page := effParam 1 pageParam
  let limit := effParam 20 limitParam
  if (page - 1) * limit < 0 then historyStoreError store
  else historySuccess uid page limit store

/-- `router.get('/history')`: the auth middleware followed by the handler
body. -/
def chatHistoryRoute (token : Option String) (verify : String → Option String)
    (pageParam limitParam : Option String) (store : List ChatRec) : Outcome :=
  match runAuth token verify with
  | none => unauthorizedOutcome store
  | some uid => handleHistoryAuthed uid pageParam limitParam store

/-! ### DELETE /:id (lines 214-230) -/

/-- Modelled from the driver contract: mongoose casts `req.params.id` to an
ObjectId before querying; a 24-character hex string (or a 12-character
string, read as raw bytes) casts, anything else raises a CastError before
the store is reached. -/
def isValidObjectId (s : String) : Bool :=
  (s.length = 24 &&
    s.data.all (fun c => c.isDigit || ('a' ≤ c && c ≤ 'f') || ('A' ≤ c && c ≤ 'F'))) ||
  s.length = 12

/-- The document `findOneAndDelete(\x7b _id, user \x7d)` matches. -/
def deleteMatch (idParam uid : String) (r : ChatRec) : Bool :=
  r._id = idParam && r.user = uid

/-- The body of `router.delete('/:id')` after auth resolved `uid`
(lines 215-229).  A malformed id makes the cast throw, which the catch turns
into a 500; otherwise `findOneAndDelete` removes the first record matching
both the id and the owner, and a missing match yields the 404. -/
def handleDeleteAuthed (uid idParam : String) (store : List ChatRec) : Outcome :=
  if isValidObjectId idParam then
    match store.find? (deleteMatch idParam uid) with
    | none =>
      { resp := { status := 404, body := .msgOnly "Chat not found" },
        store := store, genCalls := 0, storeReads := 0, storeWrites := 1 }
    | some _ =>
      { resp := { status := 200, body := .msgOnly "Chat deleted successfully" },
        store := store.eraseP (deleteMatch idParam uid), genCalls := 0,
        storeReads := 0, storeWrites := 1 }
  else
    { resp := { status := 500, body := .msgOnly "Error deleting chat" },
      store := store, genCalls := 0, storeReads := 0, storeWrites := 0 }

/-- `router.delete('/:id')`: the auth middleware followed by the handler
body. -/
def chatDeleteRoute (token : Option String) (verify : String → Option String)
    (idParam : String) (store : List ChatRec) : Outcome :=
  match runAuth token verify with
  | none => unauthorizedOutcome store
  | some uid => handleDeleteAuthed uid idParam store

end FiitChat

namespace FiitChat

/-! ### Shared sample inputs for concrete evaluations -/

/-- A sample token-verification oracle: accepts exactly the token `"tok"`,
resolving it to user `"user1"`. -/
def verifyTok : String → Option String :=
  fun t => if t = "tok" then some "user1" else none

/-- A well-formed Gemini body whose first candidate text is `"Hello!"`. -/
def sampleData : GeminiData :=
  { candidates := some [{ content := some { parts := some [{ text := some "Hello!" }] } }],
    errorMessage := none }

/-- A store of 25 records owned by user1, with increasing timestamps. -/
def store25 : List ChatRec :=
  (List.range 25).map fun i =>
    { _id := "h", user := "user1", prompt := "p", response := "r", type := "text",
      imageUrl := none, tokens := 0, model := "gemini-pro", createdAt := i }

/-! ### Helper lemmas -/

/-- A prompt whose trimmed length falls outside [1,2000] fails the
validator. -/
theorem validPrompt_eq_false {t : String}
    (h : t.length < 1 ∨ 2000 < t.length) : validPrompt t = false := by
  unfold validPrompt
  rcases h with h | h <;> simp only [Bool.and_eq_false_iff, decide_eq_false_iff_not, Nat.not_le] <;> omega

end FiitChat

namespace FiitChat

/-- C1: for every request to a protected chat operation (text and image chat,
history, delete) whose bearer token is absent or invalid, the operation
returns 401 Unauthorized, the generation API is never called, and no store
read or write occurs: the store is returned unchanged. -/
theorem c1_auth_short_circuit
    (token : Option String) (verify : String → Option String)
    (h : runAuth token verify = none)
    (rawPrompt : String) (upstream : AxiosResult) (saveErr : Option String)
    (freshId : String) (now : Nat) (store : List ChatRec)
    (pageParam limitParam : Option String) (idParam : String) :
    chatTextRoute token verify rawPrompt upstream saveErr freshId now store
        = unauthorizedOutcome store ∧
    chatImageRoute token verify rawPrompt upstream saveErr freshId now store
        = unauthorizedOutcome store ∧
    chatHistoryRoute token verify pageParam limitParam store
        = unauthorizedOutcome store ∧
    chatDeleteRoute token verify idParam store = unauthorizedOutcome store ∧
    (unauthorizedOutcome store).resp.status = 401 ∧
    (unauthorizedOutcome store).genCalls = 0 ∧
    (unauthorizedOutcome store).storeReads = 0 ∧
    (unauthorizedOutcome store).storeWrites = 0 ∧
    (unauthorizedOutcome store).store = store := by
  unfold chatTextRoute chatImageRoute chatHistoryRoute chatDeleteRoute
  rw [h]
  exact ⟨rfl, rfl, rfl, rfl, rfl, rfl, rfl, rfl, rfl⟩

/-- Witness for C1 at a concrete unauthenticated request. -/
theorem c1_auth_short_circuit_witness :
    chatTextRoute none (fun _ => none) "Hello" (.ok 200 sampleData) none "id1" 1 []
        = unauthorizedOutcome [] ∧
    chatImageRoute none (fun _ => none) "Hello" (.ok 200 sampleData) none "id1" 1 []
        = unauthorizedOutcome [] ∧
    chatHistoryRoute none (fun _ => none) none none [] = unauthorizedOutcome [] ∧
    chatDeleteRoute none (fun _ => none) "aaaaaaaaaaaa" [] = unauthorizedOutcome [] ∧
    (unauthorizedOutcome ([] : List ChatRec)).resp.status = 401 ∧
    (unauthorizedOutcome ([] : List ChatRec)).genCalls = 0 ∧
    (unauthorizedOutcome ([] : List ChatRec)).storeReads = 0 ∧
    (unauthorizedOutcome ([] : List ChatRec)).storeWrites = 0 ∧
    (unauthorizedOutcome ([] : List ChatRec)).store = [] :=
  c1_auth_short_circuit none (fun _ => none) rfl "Hello" (.ok 200 sampleData)
    none "id1" 1 [] none none "aaaaaaaaaaaa"

/-- C2 counterexample: an authenticated, valid text request whose upstream
Gemini call resolves with HTTP 429 is answered with client status 500 (the
generic error), not the 1:1-mapped 429 the claim requires: axios's
`validateStatus: status < 500` resolves the 429, and the handler then throws
a plain `Error` carrying no `.response`, so the catch block's status switch
never fires. -/
theorem c2_counterexample :
    (chatTextRoute (some "tok") verifyTok "Hello"
        (.ok 429 { candidates := none, errorMessage := none }) none "id1" 1 []).resp.status ≠ 429 ∧
    (chatTextRoute (some "tok") verifyTok "Hello"
        (.ok 429 { candidates := none, errorMessage := none }) none "id1" 1 []).resp
      = { status := 500,
          body := .msgErr "Error generating text response"
            "Failed to get response from Gemini" } := by
  constructor <;> decide

/-- C2 (amended): for every authenticated, validated handleChat request in
which the external generation API responds with HTTP 400, 401 or 429, the
client-facing response has status 500 with the generic error message — for
the text kind the resolved non-200 response is rethrown as a plain error
that loses the upstream status, and for the image kind the catch-all maps
every failure to 500. -/
theorem c2_amended
    (token : Option String) (verify : String → Option String) (uid : String)
    (hauth : runAuth token verify = some uid)
    (rawPrompt : String) (hval : validPrompt (jsTrim rawPrompt) = true)
    (saveErr : Option String) (freshId : String) (now : Nat) (store : List ChatRec) :
    (∀ s : Nat, s = 400 ∨ s = 401 ∨ s = 429 → ∀ d : GeminiData,
      (chatTextRoute token verify rawPrompt (.ok s d) saveErr freshId now store).resp
        = { status := 500,
            body := .msgErr "Error generating text response"
              (d.errorMessage.getD "Failed to get response from Gemini") }) ∧
    (∀ s : Nat, s = 400 ∨ s = 401 ∨ s = 429 → ∀ emsg : String,
      (chatImageRoute token verify rawPrompt (.err (some s) emsg) saveErr freshId now store).resp
        = { status := 500, body := .msgErr "Error generating image description" emsg }) := by
  constructor
  · intro s hs d
    unfold chatTextRoute
    rw [hauth]
    unfold handleTextAuthed
    rcases hs with rfl | rfl | rfl <;> simp [hval, textCatch]
  · intro s hs emsg
    unfold chatImageRoute
    rw [hauth]
    unfold handleImageAuthed
    simp [hval, imageCatch]

/-- Witness for C2 (amended) at a concrete request with upstream status 429. -/
theorem c2_amended_witness :
    (chatTextRoute (some "tok") verifyTok "Hello"
        (.ok 429 { candidates := none, errorMessage := none }) none "id1" 1 []).resp
      = { status := 500,
          body := .msgErr "Error generating text response"
            "Failed to get response from Gemini" } ∧
    (chatImageRoute (some "tok") verifyTok "Hello"
        (.err (some 429) "Request failed with status code 429") none "id1" 1 []).resp
      = { status := 500,
          body := .msgErr "Error generating image description"
            "Request failed with status code 429" } := by
  have h := c2_amended (some "tok") verifyTok "user1" rfl "Hello" (by decide)
    none "id1" 1 []
  exact ⟨h.1 429 (Or.inr (Or.inr rfl)) _, h.2 429 (Or.inr (Or.inr rfl)) _⟩

/-- C3: for every authenticated handleChat request (text or image kind)
whose trimmed prompt length is outside [1,2000], the route answers 400 with
the structured per-field validation error, the generation API is never
invoked, and nothing is persisted: the store is unchanged. -/
theorem c3_invalid_prompt
    (token : Option String) (verify : String → Option String) (uid : String)
    (hauth : runAuth token verify = some uid)
    (rawPrompt : String)
    (hlen : (jsTrim rawPrompt).length < 1 ∨ 2000 < (jsTrim rawPrompt).length)
    (upstream : AxiosResult) (saveErr : Option String)
    (freshId : String) (now : Nat) (store : List ChatRec) :
    chatTextRoute token verify rawPrompt upstream saveErr freshId now store
        = validationOutcome store ∧
    chatImageRoute token verify rawPrompt upstream saveErr freshId now store
        = validationOutcome store ∧
    (validationOutcome store).resp.status = 400 ∧
    (validationOutcome store).resp.body
        = .validationErrors "prompt" "Prompt must be 1-2000 characters" ∧
    (validationOutcome store).genCalls = 0 ∧
    (validationOutcome store).storeReads = 0 ∧
    (validationOutcome store).storeWrites = 0 ∧
    (validationOutcome store).store = store := by
  unfold chatTextRoute chatImageRoute
  rw [hauth]
  unfold handleTextAuthed handleImageAuthed
  simp [validPrompt_eq_false hlen]
  exact ⟨rfl, rfl, rfl, rfl, rfl, rfl⟩

/-- Witness for C3 at a concrete whitespace-only prompt. -/
theorem c3_invalid_prompt_witness :
    chatTextRoute (some "tok") verifyTok "   " (.ok 200 sampleData) none "id1" 1 []
        = validationOutcome [] ∧
    chatImageRoute (some "tok") verifyTok "   " (.ok 200 sampleData) none "id1" 1 []
        = validationOutcome [] ∧
    (validationOutcome ([] : List ChatRec)).resp.status = 400 ∧
    (validationOutcome ([] : List ChatRec)).resp.body
        = .validationErrors "prompt" "Prompt must be 1-2000 characters" ∧
    (validationOutcome ([] : List ChatRec)).genCalls = 0 ∧
    (validationOutcome ([] : List ChatRec)).storeReads = 0 ∧
    (validationOutcome ([] : List ChatRec)).storeWrites = 0 ∧
    (validationOutcome ([] : List ChatRec)).store = [] :=
  c3_invalid_prompt (some "tok") verifyTok "user1" rfl "   " (by decide)
    (.ok 200 sampleData) none "id1" 1 []

end FiitChat

namespace FiitChat

/-! ### Lemmas about the descending sort model -/

theorem length_insDesc (r : ChatRec) (l : List ChatRec) :
    (insDesc r l).length = l.length + 1 := by
  induction l with
  | nil => rfl
  | cons x xs ih =>
    unfold insDesc
    split
    · simp [ih]
    · simp

theorem length_sortDesc (l : List ChatRec) : (sortDesc l).length = l.length := by
  induction l with
  | nil => rfl
  | cons x xs ih =>
    unfold sortDesc
    rw [length_insDesc, ih]
    simp

theorem mem_insDesc {y r : ChatRec} {l : List ChatRec} :
    y ∈ insDesc r l ↔ y = r ∨ y ∈ l := by
  induction l with
  | nil => simp [insDesc]
  | cons x xs ih =>
    unfold insDesc
    split <;> simp only [List.mem_cons, ih] <;> tauto

theorem mem_sortDesc {y : ChatRec} {l : List ChatRec} :
    y ∈ sortDesc l ↔ y ∈ l := by
  induction l with
  | nil => exact Iff.rfl
  | cons x xs ih =>
    unfold sortDesc
    rw [mem_insDesc]
    simp [ih]

theorem pairwise_insDesc {r : ChatRec} {l : List ChatRec}
    (h : l.Pairwise (fun a b => b.createdAt ≤ a.createdAt)) :
    (insDesc r l).Pairwise (fun a b => b.createdAt ≤ a.createdAt) := by
  induction l with
  | nil => simp [insDesc]
  | cons x xs ih =>
    obtain ⟨hx, hxs⟩ := List.pairwise_cons.mp h
    unfold insDesc
    split
    · rename_i hc
      refine List.pairwise_cons.mpr ⟨?_, ih hxs⟩
      intro y hy
      rcases mem_insDesc.mp hy with rfl | hy
      · exact hc
      · exact hx y hy
    · rename_i hc
      refine List.pairwise_cons.mpr ⟨?_, h⟩
      intro y hy
      rcases List.mem_cons.mp hy with rfl | hy
      · omega
      · have := hx y hy
        omega

theorem sortDesc_sorted (l : List ChatRec) :
    (sortDesc l).Pairwise (fun a b => b.createdAt ≤ a.createdAt) := by
  induction l with
  | nil => exact List.Pairwise.nil
  | cons x xs ih => exact pairwise_insDesc ih

/-- In a list sorted by `createdAt` descending, an element whose `createdAt`
strictly exceeds every other element's is the head. -/
theorem head_of_sorted_max {l : List ChatRec} {x : ChatRec}
    (hs : l.Pairwise (fun a b => b.createdAt ≤ a.createdAt))
    (hx : x ∈ l) (hmax : ∀ y ∈ l, y = x ∨ y.createdAt < x.createdAt) :
    l.head? = some x := by
  cases l with
  | nil => cases hx
  | cons h t =>
    rcases hmax h (List.mem_cons_self h t) with rfl | hlt
    · rfl
    · exfalso
      have hxt : x ∈ t := by
        rcases List.mem_cons.mp hx with rfl | hxt
        · omega
        · exact hxt
      have := (List.pairwise_cons.mp hs).1 x hxt
      omega

/-- A nonempty prefix keeps the head. -/
theorem head?_take20 {α : Type} (l : List α) : (l.take 20).head? = l.head? := by
  cases l <;> rfl

/-- The extracted text of a successful text-route response is never the
empty string: the falsy check rejects it. -/
theorem textResponse_ne_empty {d : GeminiData} {r : String}
    (h : textResponse d = some r) : r ≠ "" := by
  unfold textResponse at h
  cases he : textExtract d with
  | none => rw [he] at h; cases h
  | some s =>
    rw [he] at h
    by_cases hs : s.isEmpty
    · simp [hs] at h
    · simp [hs] at h
      subst h
      intro hr
      exact hs ((String.isEmpty_iff s).mpr hr)

end FiitChat

namespace FiitChat

/-- C4 counterexample: an authenticated, valid image-description request
whose upstream 200 response has a first candidate with an empty `parts`
array (so the first-candidate text path is absent) does NOT fail: the route
substitutes the placeholder text and persists a chat record containing it,
answering 200. -/
theorem c4_counterexample :
    (chatImageRoute (some "tok") verifyTok "a cat"
        (.ok 200 { candidates := some [{ content := some { parts := some [] } }],
                   errorMessage := none })
        none "id1" 7 []).resp.status = 200 ∧
    (chatImageRoute (some "tok") verifyTok "a cat"
        (.ok 200 { candidates := some [{ content := some { parts := some [] } }],
                   errorMessage := none })
        none "id1" 7 []).store
      = [{ _id := "id1", user := "user1", prompt := "a cat",
           response := "No response from Gemini", type := "image",
           imageUrl := some "https://picsum.photos/512/512?random=7",
           tokens := 0, model := "gemini-pro", createdAt := 7 }] := by
  constructor <;> decide

/-- C4 (amended): for the text kind an absent or empty first-candidate text
fails the request with the generic 500 and nothing is persisted; for the
image-description kind, when reading the candidate path does not throw, an
absent or empty text is replaced by the placeholder `No response from
Gemini` and a record containing it IS persisted with a 200 response, and
only when reading the path throws (absent `candidates`, or absent `parts`
under a present `content`) does the request fail with 500 and nothing is
persisted. -/
theorem c4_amended
    (token : Option String) (verify : String → Option String) (uid : String)
    (hauth : runAuth token verify = some uid)
    (rawPrompt : String) (hval : validPrompt (jsTrim rawPrompt) = true)
    (freshId : String) (now : Nat) (store : List ChatRec) :
    (∀ d : GeminiData, textResponse d = none → ∀ saveErr : Option String,
      (chatTextRoute token verify rawPrompt (.ok 200 d) saveErr freshId now store).resp
          = { status := 500,
              body := .msgErr "Error generating text response"
                "Invalid response format from Gemini API" } ∧
      (chatTextRoute token verify rawPrompt (.ok 200 d) saveErr freshId now store).store
          = store) ∧
    (∀ d : GeminiData, ∀ t : Option String, imgExtract d = .ok t → jsFalsyOpt t = true →
      (chatImageRoute token verify rawPrompt (.ok 200 d) none freshId now store).resp.status
          = 200 ∧
      (chatImageRoute token verify rawPrompt (.ok 200 d) none freshId now store).store
        = store ++
          [{ _id := freshId, user := uid, prompt := jsTrim rawPrompt,
             response := "No response from Gemini", type := "image",
             imageUrl := some ("https://picsum.photos/512/512?random=" ++ toString now),
             tokens := 0, model := "gemini-pro", createdAt := now }]) ∧
    (∀ d : GeminiData, imgExtract d = .error () → ∀ saveErr : Option String,
      (chatImageRoute token verify rawPrompt (.ok 200 d) saveErr freshId now store).resp
          = { status := 500,
              body := .msgErr "Error generating image description"
                "Cannot read properties of undefined" } ∧
      (chatImageRoute token verify rawPrompt (.ok 200 d) saveErr freshId now store).store
          = store) := by
  refine ⟨?_, ?_, ?_⟩
  · intro d hd saveErr
    unfold chatTextRoute
    rw [hauth]
    unfold handleTextAuthed
    simp [hval, hd, textCatch]
  · intro d t hd ht
    unfold chatImageRoute
    rw [hauth]
    unfold handleImageAuthed
    simp [hval, hd, ht]
  · intro d hd saveErr
    unfold chatImageRoute
    rw [hauth]
    unfold handleImageAuthed
    simp [hval, hd, imageCatch]

/-- Witness for C4 (amended): a text request whose 200 body has an empty
candidates array fails with 500 and persists nothing; an image request with
an empty `parts` array persists the placeholder. -/
theorem c4_amended_witness :
    ((chatTextRoute (some "tok") verifyTok "Hello"
        (.ok 200 { candidates := some [], errorMessage := none }) none "id1" 7 []).resp
      = { status := 500,
          body := .msgErr "Error generating text response"
            "Invalid response format from Gemini API" } ∧
     (chatTextRoute (some "tok") verifyTok "Hello"
        (.ok 200 { candidates := some [], errorMessage := none }) none "id1" 7 []).store = []) ∧
    ((chatImageRoute (some "tok") verifyTok "Hello"
        (.ok 200 { candidates := some [{ content := some { parts := some [] } }],
                   errorMessage := none }) none "id1" 7 []).resp.status = 200 ∧
     (chatImageRoute (some "tok") verifyTok "Hello"
        (.ok 200 { candidates := some [{ content := some { parts := some [] } }],
                   errorMessage := none }) none "id1" 7 []).store
       = [] ++
         [{ _id := "id1", user := "user1", prompt := "Hello",
            response := "No response from Gemini", type := "image",
            imageUrl := some ("https://picsum.photos/512/512?random=" ++ toString 7),
            tokens := 0, model := "gemini-pro", createdAt := 7 }]) := by
  have h := c4_amended (some "tok") verifyTok "user1" rfl "Hello" (by decide) "id1" 7 []
  exact ⟨h.1 { candidates := some [], errorMessage := none } (by decide) none,
         h.2.1 { candidates := some [{ content := some { parts := some [] } }],
                 errorMessage := none } none rfl (by decide)⟩

/-- C5 counterexample: a run in which generation itself fails (upstream
rejects with HTTP 503 and error message "boom") and a run in which
generation succeeds but `chat.save()` fails with message "boom" produce
byte-identical client responses (500, same generic message, same detail):
the caller cannot tell the persistence failure apart from the generation
failure.  The two runs do differ internally: only the second attempted a
store write. -/
theorem c5_counterexample :
    (chatTextRoute (some "tok") verifyTok "Hello" (.err (some 503) "boom")
        none "id1" 1 []).resp
      = (chatTextRoute (some "tok") verifyTok "Hello" (.ok 200 sampleData)
          (some "boom") "id1" 1 []).resp ∧
    (chatTextRoute (some "tok") verifyTok "Hello" (.err (some 503) "boom")
        none "id1" 1 []).storeWrites = 0 ∧
    (chatTextRoute (some "tok") verifyTok "Hello" (.ok 200 sampleData)
        (some "boom") "id1" 1 []).storeWrites = 1 := by
  refine ⟨?_, ?_, ?_⟩ <;> decide

/-- C5 (amended): when generation succeeds but persisting the record fails,
the caller receives exactly the same 500 status and the same generic
message (`Error generating text response`) that generation failures
produce; only the free-form `error` detail string differs, and it can
coincide.  Nothing is persisted in that case. -/
theorem c5_amended
    (token : Option String) (verify : String → Option String) (uid : String)
    (hauth : runAuth token verify = some uid)
    (rawPrompt : String) (hval : validPrompt (jsTrim rawPrompt) = true)
    (freshId : String) (now : Nat) (store : List ChatRec) :
    (∀ d : GeminiData, ∀ r m : String, textResponse d = some r →
      (chatTextRoute token verify rawPrompt (.ok 200 d) (some m) freshId now store).resp
          = { status := 500, body := .msgErr "Error generating text response" m } ∧
      (chatTextRoute token verify rawPrompt (.ok 200 d) (some m) freshId now store).store
          = store) ∧
    (∀ emsg : String,
      (chatTextRoute token verify rawPrompt (.err none emsg) none freshId now store).resp
          = { status := 500, body := .msgErr "Error generating text response" emsg }) := by
  constructor
  · intro d r m hd
    unfold chatTextRoute
    rw [hauth]
    unfold handleTextAuthed
    simp [hval, hd, textCatch]
  · intro emsg
    unfold chatTextRoute
    rw [hauth]
    unfold handleTextAuthed
    simp [hval, textCatch]

/-- Witness for C5 (amended) at a concrete save failure and a concrete
network failure. -/
theorem c5_amended_witness :
    ((chatTextRoute (some "tok") verifyTok "Hello" (.ok 200 sampleData)
        (some "disk full") "id1" 1 []).resp
      = { status := 500, body := .msgErr "Error generating text response" "disk full" } ∧
     (chatTextRoute (some "tok") verifyTok "Hello" (.ok 200 sampleData)
        (some "disk full") "id1" 1 []).store = []) ∧
    (chatTextRoute (some "tok") verifyTok "Hello" (.err none "socket hang up")
        none "id1" 1 []).resp
      = { status := 500, body := .msgErr "Error generating text response" "socket hang up" } := by
  have h := c5_amended (some "tok") verifyTok "user1" rfl "Hello" (by decide) "id1" 1 []
  exact ⟨h.1 sampleData "Hello!" "disk full" (by decide), h.2 "socket hang up"⟩

/-- C6: for a well-formed record id, the delete route removes a record only
when it is owned by the authenticated caller; when no record matches the
pair (id, caller) — whether the id does not exist at all or the record
belongs to a different user — it answers the one fixed 404 response, so the
two cases are indistinguishable to the caller, and the store is unchanged. -/
theorem c6_delete_owner_scoped
    (token : Option String) (verify : String → Option String) (uid : String)
    (hauth : runAuth token verify = some uid)
    (idParam : String) (hid : isValidObjectId idParam = true)
    (store : List ChatRec) :
    (store.find? (deleteMatch idParam uid) = none →
      chatDeleteRoute token verify idParam store
        = { resp := { status := 404, body := .msgOnly "Chat not found" },
            store := store, genCalls := 0, storeReads := 0, storeWrites := 1 }) ∧
    (∀ r, store.find? (deleteMatch idParam uid) = some r →
      r._id = idParam ∧ r.user = uid ∧
      chatDeleteRoute token verify idParam store
        = { resp := { status := 200, body := .msgOnly "Chat deleted successfully" },
            store := store.eraseP (deleteMatch idParam uid), genCalls := 0,
            storeReads := 0, storeWrites := 1 }) ∧
    (∀ store2 : List ChatRec, store.find? (deleteMatch idParam uid) = none →
      store2.find? (deleteMatch idParam uid) = none →
      (chatDeleteRoute token verify idParam store).resp
        = (chatDeleteRoute token verify idParam store2).resp) := by
  refine ⟨?_, ?_, ?_⟩
  · intro h
    unfold chatDeleteRoute
    rw [hauth]
    unfold handleDeleteAuthed
    simp [hid, h]
  · intro r h
    have hp := List.find?_some h
    unfold deleteMatch at hp
    simp only [Bool.and_eq_true, decide_eq_true_eq] at hp
    refine ⟨hp.1, hp.2, ?_⟩
    unfold chatDeleteRoute
    rw [hauth]
    unfold handleDeleteAuthed
    simp [hid, h]
  · intro store2 h1 h2
    unfold chatDeleteRoute
    rw [hauth]
    unfold handleDeleteAuthed
    simp [hid, h1, h2]

/-- Witness for C6: deleting an id owned by another user and deleting a
missing id both answer the fixed 404 with the store unchanged; deleting an
owned id removes it. -/
theorem c6_delete_owner_scoped_witness :
    (chatDeleteRoute (some "tok") verifyTok "aaaaaaaaaaaa"
        [{ _id := "aaaaaaaaaaaa", user := "user2", prompt := "p", response := "r",
           type := "text", imageUrl := none, tokens := 0, model := "gemini-pro",
           createdAt := 1 }]
      = { resp := { status := 404, body := .msgOnly "Chat not found" },
          store :=
            [{ _id := "aaaaaaaaaaaa", user := "user2", prompt := "p",
               response := "r", type := "text", imageUrl := none, tokens := 0,
               model := "gemini-pro", createdAt := 1 }],
          genCalls := 0, storeReads := 0, storeWrites := 1 }) ∧
    (chatDeleteRoute (some "tok") verifyTok "aaaaaaaaaaaa" []
      = { resp := { status := 404, body := .msgOnly "Chat not found" },
          store := [], genCalls := 0, storeReads := 0, storeWrites := 1 }) ∧
    (chatDeleteRoute (some "tok") verifyTok "aaaaaaaaaaaa"
        [{ _id := "aaaaaaaaaaaa", user := "user1", prompt := "p", response := "r",
           type := "text", imageUrl := none, tokens := 0, model := "gemini-pro",
           createdAt := 1 }]).store = [] := by
  refine ⟨?_, ?_, ?_⟩
  · exact (c6_delete_owner_scoped (some "tok") verifyTok "user1" rfl "aaaaaaaaaaaa"
      (by decide) _).1 (by decide)
  · exact (c6_delete_owner_scoped (some "tok") verifyTok "user1" rfl "aaaaaaaaaaaa"
      (by decide) []).1 (by decide)
  · have h := (c6_delete_owner_scoped (some "tok") verifyTok "user1" rfl "aaaaaaaaaaaa"
      (by decide)
      [{ _id := "aaaaaaaaaaaa", user := "user1", prompt := "p", response := "r",
         type := "text", imageUrl := none, tokens := 0, model := "gemini-pro",
         createdAt := 1 }]).2.1
      { _id := "aaaaaaaaaaaa", user := "user1", prompt := "p", response := "r",
        type := "text", imageUrl := none, tokens := 0, model := "gemini-pro",
        createdAt := 1 } rfl
    rw [h.2.2]
    decide

/-- C10: for an authenticated delete whose id is not a castable store
identifier, the route answers 500 `Error deleting chat` (the cast throws
before the store is reached), not 404, and the store is untouched; the 404
NotFound contract holds for well-formed ids with no matching record. -/
theorem c10_malformed_delete_id
    (token : Option String) (verify : String → Option String) (uid : String)
    (hauth : runAuth token verify = some uid)
    (idParam : String) (hid : isValidObjectId idParam = false)
    (store : List ChatRec) :
    chatDeleteRoute token verify idParam store
      = { resp := { status := 500, body := .msgOnly "Error deleting chat" },
          store := store, genCalls := 0, storeReads := 0, storeWrites := 0 } ∧
    (chatDeleteRoute token verify idParam store).resp.status ≠ 404 ∧
    (∀ id2 : String, isValidObjectId id2 = true →
      store.find? (deleteMatch id2 uid) = none →
      (chatDeleteRoute token verify id2 store).resp
        = { status := 404, body := .msgOnly "Chat not found" }) := by
  have hmain : chatDeleteRoute token verify idParam store
      = { resp := { status := 500, body := .msgOnly "Error deleting chat" },
          store := store, genCalls := 0, storeReads := 0, storeWrites := 0 } := by
    unfold chatDeleteRoute
    rw [hauth]
    unfold handleDeleteAuthed
    simp [hid]
  refine ⟨hmain, ?_, ?_⟩
  · rw [hmain]
    show (500 : Nat) ≠ 404
    omega
  · intro id2 h2 hfind
    unfold chatDeleteRoute
    rw [hauth]
    unfold handleDeleteAuthed
    simp [h2, hfind]

/-- Witness for C10 at the malformed id `"abc"` and the well-formed id
`"aaaaaaaaaaaa"` on an empty store. -/
theorem c10_malformed_delete_id_witness :
    chatDeleteRoute (some "tok") verifyTok "abc" []
      = { resp := { status := 500, body := .msgOnly "Error deleting chat" },
          store := [], genCalls := 0, storeReads := 0, storeWrites := 0 } ∧
    (chatDeleteRoute (some "tok") verifyTok "abc" []).resp.status ≠ 404 ∧
    (chatDeleteRoute (some "tok") verifyTok "aaaaaaaaaaaa" []).resp
      = { status := 404, body := .msgOnly "Chat not found" } := by
  have h := c10_malformed_delete_id (some "tok") verifyTok "user1" rfl "abc" (by decide) []
  exact ⟨h.1, h.2.1, h.2.2 "aaaaaaaaaaaa" (by decide) (by decide)⟩

end FiitChat

namespace FiitChat

/-! ### History route helper lemmas -/

theorem chatHistoryRoute_success
    {token : Option String} {verify : String → Option String} {uid : String}
    (hauth : runAuth token verify = some uid)
    (pp lp : Option String) (store : List ChatRec)
    (h : ¬ ((effParam 1 pp - 1) * effParam 20 lp < 0)) :
    chatHistoryRoute token verify pp lp store
      = historySuccess uid (effParam 1 pp) (effParam 20 lp) store := by
  unfold chatHistoryRoute
  rw [hauth]
  unfold handleHistoryAuthed
  show (if (effParam 1 pp - 1) * effParam 20 lp < 0 then historyStoreError store
        else historySuccess uid (effParam 1 pp) (effParam 20 lp) store)
      = historySuccess uid (effParam 1 pp) (effParam 20 lp) store
  rw [if_neg h]

theorem historySuccess_chatsOf (uid : String) (page limit : Int) (store : List ChatRec) :
    (historySuccess uid page limit store).resp.body.chatsOf
      = (((sortDesc (store.filter (fun r => r.user = uid))).drop
            ((page - 1) * limit).toNat).take limit.natAbs).map projectChat := rfl

theorem historySuccess_current (uid : String) (page limit : Int) (store : List ChatRec) :
    (historySuccess uid page limit store).resp.body.pageCurrent = page := rfl

theorem historySuccess_limit (uid : String) (page limit : Int) (store : List ChatRec) :
    (historySuccess uid page limit store).resp.body.pageLimit = limit := rfl

theorem historySuccess_total (uid : String) (page limit : Int) (store : List ChatRec) :
    (historySuccess uid page limit store).resp.body.pageTotal
      = jsMathCeilDiv (store.filter (fun r => r.user = uid)).length limit := rfl

theorem historySuccess_count (uid : String) (page limit : Int) (store : List ChatRec) :
    (historySuccess uid page limit store).resp.body.pageCount
      = (store.filter (fun r => r.user = uid)).length := rfl

/-- Whatever the parameters, the chats array an authenticated history call
returns is some drop/take window of the descending-sorted list of the
caller's records, projected — or empty on the store-error path. -/
theorem chatHistoryRoute_chatsOf_shape
    {token : Option String} {verify : String → Option String} {uid : String}
    (hauth : runAuth token verify = some uid)
    (pp lp : Option String) (store : List ChatRec) :
    (chatHistoryRoute token verify pp lp store).resp.body.chatsOf = [] ∨
    ∃ skip limN,
      (chatHistoryRoute token verify pp lp store).resp.body.chatsOf
        = (((sortDesc (store.filter (fun r => r.user = uid))).drop skip).take limN).map
            projectChat := by
  by_cases h : (effParam 1 pp - 1) * effParam 20 lp < 0
  · left
    unfold chatHistoryRoute
    rw [hauth]
    unfold handleHistoryAuthed
    show (if (effParam 1 pp - 1) * effParam 20 lp < 0 then historyStoreError store
          else historySuccess uid (effParam 1 pp) (effParam 20 lp) store).resp.body.chatsOf
        = []
    rw [if_pos h]
    rfl
  · right
    rw [chatHistoryRoute_success hauth pp lp store h, historySuccess_chatsOf]
    exact ⟨_, _, rfl⟩

/-- A record just appended for `uid` with a timestamp strictly beyond every
record already stored comes back first from a default-parameter history
call. -/
theorem history_head_of_fresh
    {token : Option String} {verify : String → Option String} {uid : String}
    (hauth : runAuth token verify = some uid)
    (store : List ChatRec) (newRec : ChatRec) (hu : newRec.user = uid)
    (hfresh : ∀ r ∈ store, r.createdAt < newRec.createdAt) :
    (chatHistoryRoute token verify none none (store ++ [newRec])).resp.body.chatsOf.head?
      = some (projectChat newRec) := by
  have hcond : ¬ ((effParam 1 (none : Option String) - 1) * effParam 20 none < 0) := by
    decide
  rw [chatHistoryRoute_success hauth none none _ hcond, historySuccess_chatsOf]
  have e1 : ((effParam 1 (none : Option String) - 1) * effParam 20 none).toNat = 0 := by
    decide
  have e2 : (effParam 20 (none : Option String)).natAbs = 20 := by decide
  rw [e1, e2, List.drop_zero, List.head?_map, head?_take20]
  have hmem : newRec ∈ sortDesc ((store ++ [newRec]).filter (fun r => r.user = uid)) := by
    rw [mem_sortDesc, List.mem_filter]
    exact ⟨List.mem_append_right _ (by simp), by simp [hu]⟩
  have hhead : (sortDesc ((store ++ [newRec]).filter (fun r => r.user = uid))).head?
      = some newRec := by
    apply head_of_sorted_max (sortDesc_sorted _) hmem
    intro y hy
    rw [mem_sortDesc, List.mem_filter] at hy
    rcases List.mem_append.mp hy.1 with hys | hynew
    · right
      exact hfresh y hys
    · left
      simpa using hynew
  rw [hhead]
  rfl

end FiitChat

namespace FiitChat

/-- C8: every record an authenticated history call returns is the projection
of a record in the store owned by the caller (never another user's); the
returned list is ordered by `createdAt` descending; and the projection is
independent of the owner field, which it drops. -/
theorem c8_history_scope
    (token : Option String) (verify : String → Option String) (uid : String)
    (hauth : runAuth token verify = some uid)
    (pageParam limitParam : Option String) (store : List ChatRec) :
    (∀ c ∈ (chatHistoryRoute token verify pageParam limitParam store).resp.body.chatsOf,
      ∃ r, r ∈ store ∧ r.user = uid ∧ projectChat r = c) ∧
    ((chatHistoryRoute token verify pageParam limitParam store).resp.body.chatsOf).Pairwise
      (fun a b => b.createdAt ≤ a.createdAt) ∧
    (∀ r : ChatRec, ∀ u2 : String, projectChat { r with user := u2 } = projectChat r) := by
  rcases chatHistoryRoute_chatsOf_shape hauth pageParam limitParam store with h | ⟨skip, limN, h⟩
  · rw [h]
    refine ⟨?_, List.Pairwise.nil, fun r u2 => rfl⟩
    intro c hc
    cases hc
  · rw [h]
    refine ⟨?_, ?_, fun r u2 => rfl⟩
    · intro c hc
      obtain ⟨r, hr, hrc⟩ := List.mem_map.mp hc
      have hr1 : r ∈ sortDesc (store.filter (fun r => r.user = uid)) :=
        List.mem_of_mem_drop (List.mem_of_mem_take hr)
      have hr2 : r ∈ store.filter (fun r => r.user = uid) := mem_sortDesc.mp hr1
      exact ⟨r, List.mem_of_mem_filter hr2,
        by simpa using List.of_mem_filter hr2, hrc⟩
    · refine List.pairwise_map.mpr ?_
      exact (sortDesc_sorted (store.filter (fun r => r.user = uid))).sublist
        ((List.take_sublist _ _).trans (List.drop_sublist _ _))

/-- Witness for C8 at a concrete two-user store. -/
theorem c8_history_scope_witness :
    (∀ c ∈ (chatHistoryRoute (some "tok") verifyTok none none
        [{ _id := "a", user := "user1", prompt := "p1", response := "r1",
           type := "text", imageUrl := none, tokens := 0, model := "gemini-pro",
           createdAt := 1 },
         { _id := "b", user := "user2", prompt := "p2", response := "r2",
           type := "text", imageUrl := none, tokens := 0, model := "gemini-pro",
           createdAt := 2 }]).resp.body.chatsOf,
      ∃ r, r ∈ [{ _id := "a", user := "user1", prompt := "p1", response := "r1",
                  type := "text", imageUrl := none, tokens := 0, model := "gemini-pro",
                  createdAt := 1 },
                { _id := "b", user := "user2", prompt := "p2", response := "r2",
                  type := "text", imageUrl := none, tokens := 0, model := "gemini-pro",
                  createdAt := 2 }] ∧ r.user = "user1" ∧ projectChat r = c) ∧
    ((chatHistoryRoute (some "tok") verifyTok none none
        [{ _id := "a", user := "user1", prompt := "p1", response := "r1",
           type := "text", imageUrl := none, tokens := 0, model := "gemini-pro",
           createdAt := 1 },
         { _id := "b", user := "user2", prompt := "p2", response := "r2",
           type := "text", imageUrl := none, tokens := 0, model := "gemini-pro",
           createdAt := 2 }]).resp.body.chatsOf).Pairwise
      (fun a b => b.createdAt ≤ a.createdAt) ∧
    (∀ r : ChatRec, ∀ u2 : String, projectChat { r with user := u2 } = projectChat r) :=
  c8_history_scope (some "tok") verifyTok "user1" rfl none none
    [{ _id := "a", user := "user1", prompt := "p1", response := "r1",
       type := "text", imageUrl := none, tokens := 0, model := "gemini-pro",
       createdAt := 1 },
     { _id := "b", user := "user2", prompt := "p2", response := "r2",
       type := "text", imageUrl := none, tokens := 0, model := "gemini-pro",
       createdAt := 2 }]

end FiitChat

namespace FiitChat

/-- C7: history pagination is offset-based with `skip = (page-1)*pageSize`;
`page` and `pageSize` default to 1 and 20 whenever the query parameter is
unspecified or does not parse to a nonzero number; `totalPages` is
`ceil(totalCount/pageSize)`; and for a user with 25 records, page 2 with
page size 20 returns exactly 5 records with `totalPages = 2`. -/
theorem c7_pagination
    (token : Option String) (verify : String → Option String) (uid : String)
    (hauth : runAuth token verify = some uid) (store : List ChatRec) :
    (∀ pageParam limitParam : Option String,
      jsParseInt pageParam = none ∨ jsParseInt pageParam = some 0 →
      (chatHistoryRoute token verify pageParam limitParam store).resp.body.pageCurrent = 1) ∧
    (∀ pageParam limitParam : Option String,
      jsParseInt limitParam = none ∨ jsParseInt limitParam = some 0 →
      (jsParseInt pageParam = none ∨ ∃ p, jsParseInt pageParam = some p ∧ 0 ≤ p) →
      (chatHistoryRoute token verify pageParam limitParam store).resp.body.pageLimit = 20) ∧
    (∀ pageParam limitParam : Option String, ∀ p l : Int,
      jsParseInt pageParam = some p → 1 ≤ p →
      jsParseInt limitParam = some l → 1 ≤ l →
      (chatHistoryRoute token verify pageParam limitParam store).resp.body.chatsOf
        = (((sortDesc (store.filter (fun r => r.user = uid))).drop
              ((p - 1) * l).toNat).take l.toNat).map projectChat ∧
      (chatHistoryRoute token verify pageParam limitParam store).resp.body.pageCurrent = p ∧
      (chatHistoryRoute token verify pageParam limitParam store).resp.body.pageLimit = l ∧
      (chatHistoryRoute token verify pageParam limitParam store).resp.body.pageTotal
        = (((store.filter (fun r => r.user = uid)).length + l.toNat - 1) / l.toNat : Nat) ∧
      (chatHistoryRoute token verify pageParam limitParam store).resp.body.pageCount
        = (store.filter (fun r => r.user = uid)).length) ∧
    (∀ pageParam limitParam : Option String,
      jsParseInt pageParam = some 2 →
      (jsParseInt limitParam = none ∨ jsParseInt limitParam = some 20) →
      (store.filter (fun r => r.user = uid)).length = 25 →
      ((chatHistoryRoute token verify pageParam limitParam store).resp.body.chatsOf).length = 5 ∧
      (chatHistoryRoute token verify pageParam limitParam store).resp.body.pageTotal = 2) := by
  refine ⟨?_, ?_, ?_, ?_⟩
  · intro pp lp h
    have hp : effParam 1 pp = 1 := by rcases h with h | h <;> simp [effParam, h]
    have hcond : ¬ ((effParam 1 pp - 1) * effParam 20 lp < 0) := by
      rw [hp]
      norm_num
    rw [chatHistoryRoute_success hauth pp lp store hcond, historySuccess_current, hp]
  · intro pp lp hl hp
    have hl' : effParam 20 lp = 20 := by rcases hl with h | h <;> simp [effParam, h]
    have hp' : 1 ≤ effParam 1 pp := by
      rcases hp with h | ⟨p, h, hp0⟩
      · simp [effParam, h]
      · unfold effParam
        rw [h]
        show 1 ≤ if p = 0 then 1 else p
        by_cases hz : p = 0
        · rw [if_pos hz]
        · rw [if_neg hz]
          omega
    have hcond : ¬ ((effParam 1 pp - 1) * effParam 20 lp < 0) := by
      rw [hl']
      have := mul_nonneg (by omega : (0:Int) ≤ effParam 1 pp - 1)
        (by norm_num : (0:Int) ≤ 20)
      omega
    rw [chatHistoryRoute_success hauth pp lp store hcond, historySuccess_limit, hl']
  · intro pp lp p l hp hp1 hl hl1
    have hpe : effParam 1 pp = p := by
      unfold effParam
      rw [hp]
      show (if p = 0 then 1 else p) = p
      exact if_neg (by omega)
    have hle : effParam 20 lp = l := by
      unfold effParam
      rw [hl]
      show (if l = 0 then 20 else l) = l
      exact if_neg (by omega)
    have hcond : ¬ ((effParam 1 pp - 1) * effParam 20 lp < 0) := by
      rw [hpe, hle]
      have := mul_nonneg (by omega : (0:Int) ≤ p - 1) (by omega : (0:Int) ≤ l)
      omega
    rw [chatHistoryRoute_success hauth pp lp store hcond, historySuccess_chatsOf,
        historySuccess_current, historySuccess_limit, historySuccess_total,
        historySuccess_count, hpe, hle]
    have hnat : l.natAbs = l.toNat := by omega
    rw [hnat]
    refine ⟨rfl, rfl, rfl, ?_, rfl⟩
    unfold jsMathCeilDiv
    rw [if_pos (by omega : (0:Int) < l)]
  · intro pp lp hp hl hcount
    have hpe : effParam 1 pp = 2 := by
      unfold effParam
      rw [hp]
      rfl
    have hle : effParam 20 lp = 20 := by rcases hl with h | h <;> simp [effParam, h]
    have hcond : ¬ ((effParam 1 pp - 1) * effParam 20 lp < 0) := by
      rw [hpe, hle]
      norm_num
    rw [chatHistoryRoute_success hauth pp lp store hcond, historySuccess_chatsOf,
        historySuccess_total, hpe, hle]
    constructor
    · rw [List.length_map, List.length_take, List.length_drop, length_sortDesc, hcount]
      decide
    · rw [hcount]
      decide

/-- Witness for C7: on a 25-record store, page "2" with the default page
size returns 5 records and 2 total pages; defaulted parameters report page
1 and limit 20; explicit page "2" with limit "20" reports page 2. -/
theorem c7_pagination_witness :
    ((chatHistoryRoute (some "tok") verifyTok (some "2") none store25).resp.body.chatsOf).length
        = 5 ∧
    (chatHistoryRoute (some "tok") verifyTok (some "2") none store25).resp.body.pageTotal = 2 ∧
    (chatHistoryRoute (some "tok") verifyTok none none store25).resp.body.pageCurrent = 1 ∧
    (chatHistoryRoute (some "tok") verifyTok none none store25).resp.body.pageLimit = 20 ∧
    (chatHistoryRoute (some "tok") verifyTok (some "2") (some "20") store25).resp.body.pageCurrent
        = 2 := by
  have h := c7_pagination (some "tok") verifyTok "user1" rfl store25
  have hd := h.2.2.2 (some "2") none (by decide) (Or.inl rfl) (by decide)
  refine ⟨hd.1, hd.2, h.1 none none (Or.inl rfl), h.2.1 none none (Or.inl rfl) (Or.inl rfl),
    (h.2.2.1 (some "2") (some "20") 2 20 (by decide) (by decide) (by decide)
      (by decide)).2.1⟩

end FiitChat

namespace FiitChat

/-- C9 counterexample: a successful text chat with the input prompt
`" Hi "` (valid: its trimmed length is 2) returns a record whose prompt is
the trimmed `"Hi"`, not the caller's input verbatim: the validation chain's
trim sanitizer rewrites the prompt before the handler reads it. -/
theorem c9_counterexample :
    (chatTextRoute (some "tok") verifyTok " Hi " (.ok 200 sampleData) none "id9" 3 []).resp.body
      = .textData "Text response generated successfully" "id9" "Hi" "Hello!" "text" 3 ∧
    ("Hi" : String) ≠ " Hi " := by
  constructor <;> decide

/-- C9 (amended): a successful text chat returns a record whose prompt
equals the trimmed input (verbatim whenever the input carries no
surrounding whitespace) and whose response is non-empty; the new record is
appended to the store with the fresh timestamp, and an immediately
subsequent history call by the same user returns it first. -/
theorem c9_amended
    (token : Option String) (verify : String → Option String) (uid : String)
    (hauth : runAuth token verify = some uid)
    (rawPrompt : String) (hval : validPrompt (jsTrim rawPrompt) = true)
    (d : GeminiData) (resp : String) (hresp : textResponse d = some resp)
    (freshId : String) (now : Nat) (store : List ChatRec)
    (hfresh : ∀ r ∈ store, r.createdAt < now) :
    (chatTextRoute token verify rawPrompt (.ok 200 d) none freshId now store).resp
      = { status := 200,
          body := .textData "Text response generated successfully" freshId
            (jsTrim rawPrompt) resp "text" now } ∧
    resp ≠ "" ∧
    (chatTextRoute token verify rawPrompt (.ok 200 d) none freshId now store).store
      = store ++
        [{ _id := freshId, user := uid, prompt := jsTrim rawPrompt, response := resp,
           type := "text", imageUrl := none, tokens := 0, model := "gemini-pro",
           createdAt := now }] ∧
    (chatHistoryRoute token verify none none
        ((chatTextRoute token verify rawPrompt (.ok 200 d) none freshId now store).store)
      ).resp.body.chatsOf.head?
      = some (projectChat
          { _id := freshId, user := uid, prompt := jsTrim rawPrompt, response := resp,
            type := "text", imageUrl := none, tokens := 0, model := "gemini-pro",
            createdAt := now }) := by
  have hroute : chatTextRoute token verify rawPrompt (.ok 200 d) none freshId now store
      = { resp := { status := 200,
                    body := .textData "Text response generated successfully" freshId
                      (jsTrim rawPrompt) resp "text" now },
          store := store ++
            [{ _id := freshId, user := uid, prompt := jsTrim rawPrompt, response := resp,
               type := "text", imageUrl := none, tokens := 0, model := "gemini-pro",
               createdAt := now }],
          genCalls := 1, storeReads := 0, storeWrites := 1 } := by
    unfold chatTextRoute
    rw [hauth]
    unfold handleTextAuthed
    simp [hval, hresp]
  refine ⟨by rw [hroute], textResponse_ne_empty hresp, by rw [hroute], ?_⟩
  rw [hroute]
  exact history_head_of_fresh hauth store _ rfl hfresh

/-- Witness for C9 (amended): a concrete successful chat on a one-record
store; the fresh record comes back first from the subsequent history
call. -/
theorem c9_amended_witness :
    (chatTextRoute (some "tok") verifyTok "Hello" (.ok 200 sampleData) none "id9" 5
        [{ _id := "id0", user := "user1", prompt := "old", response := "old",
           type := "text", imageUrl := none, tokens := 0, model := "gemini-pro",
           createdAt := 0 }]).resp
      = { status := 200,
          body := .textData "Text response generated successfully" "id9"
            (jsTrim "Hello") "Hello!" "text" 5 } ∧
    ("Hello!" : String) ≠ "" ∧
    (chatTextRoute (some "tok") verifyTok "Hello" (.ok 200 sampleData) none "id9" 5
        [{ _id := "id0", user := "user1", prompt := "old", response := "old",
           type := "text", imageUrl := none, tokens := 0, model := "gemini-pro",
           createdAt := 0 }]).store
      = [{ _id := "id0", user := "user1", prompt := "old", response := "old",
           type := "text", imageUrl := none, tokens := 0, model := "gemini-pro",
           createdAt := 0 }] ++
        [{ _id := "id9", user := "user1", prompt := jsTrim "Hello", response := "Hello!",
           type := "text", imageUrl := none, tokens := 0, model := "gemini-pro",
           createdAt := 5 }] ∧
    (chatHistoryRoute (some "tok") verifyTok none none
        ((chatTextRoute (some "tok") verifyTok "Hello" (.ok 200 sampleData) none "id9" 5
            [{ _id := "id0", user := "user1", prompt := "old", response := "old",
               type := "text", imageUrl := none, tokens := 0, model := "gemini-pro",
               createdAt := 0 }]).store)).resp.body.chatsOf.head?
      = some (projectChat
          { _id := "id9", user := "user1", prompt := jsTrim "Hello", response := "Hello!",
            type := "text", imageUrl := none, tokens := 0, model := "gemini-pro",
            createdAt := 5 }) :=
  c9_amended (some "tok") verifyTok "user1" rfl "Hello" (by decide) sampleData "Hello!"
    (by decide) "id9" 5
    [{ _id := "id0", user := "user1", prompt := "old", response := "old",
       type := "text", imageUrl := none, tokens := 0, model := "gemini-pro",
       createdAt := 0 }]
    (by decide)

end FiitChat
